import Mathlib

/-!
Shallow embedding of `src/shared/netif-naming-scheme.c` (systemd-rhel9):
the versioned naming-scheme registry with its resolution algorithm, and the
sysattr-visibility filter, together with proofs of the specified properties.
-/

/-- Feature-bitset tag of a naming scheme. The concrete flag values live in
the header `netif-naming-scheme.h`; the registry logic treats them as opaque,
so they are embedded as an enumeration of the named constants used by the
table in the `.c` file. -/
inductive NamingSchemeFlags where
  | NAMING_V238 | NAMING_V239 | NAMING_V240 | NAMING_V241 | NAMING_V243
  | NAMING_V245 | NAMING_V247 | NAMING_V249 | NAMING_V250 | NAMING_V251
  | NAMING_V252
  | NAMING_RHEL_8_0 | NAMING_RHEL_8_1 | NAMING_RHEL_8_2 | NAMING_RHEL_8_3
  | NAMING_RHEL_8_4 | NAMING_RHEL_8_5 | NAMING_RHEL_8_6 | NAMING_RHEL_8_7
  | NAMING_RHEL_8_8 | NAMING_RHEL_8_9 | NAMING_RHEL_8_10
  | NAMING_RHEL_9_0 | NAMING_RHEL_9_1 | NAMING_RHEL_9_2
  | extraFlags (n : Nat)

/-- Entry of the naming-scheme registry: `struct NamingScheme { const char *name; NamingSchemeFlags flags; }`. -/
structure NamingScheme where
  name : String
  flags : NamingSchemeFlags

open NamingSchemeFlags in
/-- Static table `naming_schemes[]` as written in the source, without the
build-configurable `EXTRA_NET_NAMING_MAP` suffix (that suffix is passed
separately as the `extra` parameter below). -/
def naming_schemes : List NamingScheme := [
  ⟨"v238", NAMING_V238⟩,
  ⟨"v239", NAMING_V239⟩,
  ⟨"v240", NAMING_V240⟩,
  ⟨"v241", NAMING_V241⟩,
  ⟨"v243", NAMING_V243⟩,
  ⟨"v245", NAMING_V245⟩,
  ⟨"v247", NAMING_V247⟩,
  ⟨"v249", NAMING_V249⟩,
  ⟨"v250", NAMING_V250⟩,
  ⟨"v251", NAMING_V251⟩,
  ⟨"v252", NAMING_V252⟩,
  ⟨"rhel-8.0", NAMING_RHEL_8_0⟩,
  ⟨"rhel-8.1", NAMING_RHEL_8_1⟩,
  ⟨"rhel-8.2", NAMING_RHEL_8_2⟩,
  ⟨"rhel-8.3", NAMING_RHEL_8_3⟩,
  ⟨"rhel-8.4", NAMING_RHEL_8_4⟩,
  ⟨"rhel-8.5", NAMING_RHEL_8_5⟩,
  ⟨"rhel-8.6", NAMING_RHEL_8_6⟩,
  ⟨"rhel-8.7", NAMING_RHEL_8_7⟩,
  ⟨"rhel-8.8", NAMING_RHEL_8_8⟩,
  ⟨"rhel-8.9", NAMING_RHEL_8_9⟩,
  ⟨"rhel-8.10", NAMING_RHEL_8_10⟩,
  ⟨"rhel-9.0", NAMING_RHEL_9_0⟩,
  ⟨"rhel-9.1", NAMING_RHEL_9_1⟩,
  ⟨"rhel-9.2", NAMING_RHEL_9_2⟩ ]

/-- Full registry table: the static entries followed by the build-configured
`EXTRA_NET_NAMING_MAP` entries `extra`. -/
def full_table (extra : List NamingScheme) : List NamingScheme :=
  naming_schemes ++ extra

/-- Embedding of `naming_scheme_from_name`: linear scan of the table for an
exact string match; if none matches and the name is "latest", the last table
entry is returned; otherwise NULL (here `none`). -/
def naming_scheme_from_name (extra : List NamingScheme) (name : String) :
    Option NamingScheme :=
  match (full_table extra).find? (fun s => s.name == name) with
  | some s => some s
  | none =>
      if name == "latest" then (full_table extra).getLast? else none

/-- Model of the C test `*e == ':'` on a NUL-terminated string: the first
character of `e` is a colon (an empty string has first character NUL). -/
def startsWithColon (s : String) : Bool :=
  match s.data with
  | [] => false
  | c :: _ => c == ':'

/-- Candidate-selection step of `naming_scheme()`: `buffer` is the value of
the boot command-line key `net.naming-scheme` (NULL when absent), `e` the
value of the environment variable `NET_NAMING_SCHEME` (NULL when absent);
the result is the candidate string `k` (NULL when both are absent).
Mirrors the source: if `e` is set and starts with a colon, `k = buffer ?: e + 1`;
if `e` is set otherwise, `k = e`; if `e` is unset, `k = buffer`. -/
def candidate (buffer e : Option String) : Option String :=
  match e with
  | some e =>
      if startsWithColon e then
        match buffer with
        | some b => some b
        | none => some (e.drop 1)
      else
        some e
  | none => buffer

/-- Modelled from the spec: the precedence rule in the spec's own words, for
comparison with `candidate` above. "If the environment variable is present
and starts with a colon: the boot-command-line value takes precedence if
present; otherwise the remainder of the environment value (after the colon)
is used. If the environment variable is present and does not start with a
colon: the environment value takes precedence unconditionally. If the
environment variable is absent: the (possibly absent) boot value is used." -/
def candidate_spec (boot env : Option String) : Option String :=
  match env with
  | some e =>
      if startsWithColon e then
        (match boot with
         | some b => some b
         | none => some (e.drop 1))
      else
        some e
  | none => boot

/-- Log messages emitted by `naming_scheme()`. -/
inductive LogMsg where
  | info (name : String)
  | warning (k : String)
  | infoDefault (name : String)

/-- Body of `naming_scheme()` after the cache check: resolves the candidate
string against the registry, falling back to the compiled-in default scheme
name `d` (= `DEFAULT_NET_NAMING_SCHEME`, a build-configuration value) with a
warning when the candidate is unknown. A `none` result models the
`assert(cache)` abort when even the default name fails to resolve.
Returns the resolved entry together with the emitted log messages. -/
def naming_scheme_compute (extra : List NamingScheme) (d : String)
    (buffer e : Option String) : Option NamingScheme × List LogMsg :=
  match candidate buffer e with
  | some k =>
      match naming_scheme_from_name extra k with
      | some s => (some s, [LogMsg.info s.name])
      | none =>
          match naming_scheme_from_name extra d with
          | some dflt =>
              (some dflt, [LogMsg.warning k, LogMsg.infoDefault dflt.name])
          | none => (none, [LogMsg.warning k])
  | none =>
      match naming_scheme_from_name extra d with
      | some dflt => (some dflt, [LogMsg.infoDefault dflt.name])
      | none => (none, [])

/-- One call to `naming_scheme()` with explicit cache state: if the static
`cache` slot is non-NULL it is returned unchanged; otherwise the value is
computed from the configuration sources and stored. Returns the call's
result and the new cache state. -/
def naming_scheme (extra : List NamingScheme) (d : String)
    (buffer e : Option String) (cache : Option NamingScheme) :
    Option NamingScheme × Option NamingScheme :=
  match cache with
  | some c => (some c, some c)
  | none =>
      let r := (naming_scheme_compute extra d buffer e).1
      (r, r)

/-- Sequence of calls to `naming_scheme()` within one process, threading the
cache; each list element is the (boot value, environment value) pair visible
at that call. Returns the per-call results and the final cache state. -/
def naming_scheme_calls (extra : List NamingScheme) (d : String)
    (cache : Option NamingScheme) :
    List (Option String × Option String) →
      List (Option NamingScheme) × Option NamingScheme
  | [] => ([], cache)
  | (buffer, e) :: rest =>
      let step := naming_scheme extra d buffer e cache
      let tail := naming_scheme_calls extra d step.2 rest
      (step.1 :: tail.1, tail.2)

/-- Model of C `ascii_toupper` from string-util.h: maps a lowercase ASCII
letter to the corresponding uppercase letter and leaves every other
character unchanged. -/
def ascii_toupper (c : Char) : Char :=
  if 'a' ≤ c ∧ c ≤ 'z' then Char.ofNat (c.toNat - 32) else c

/-- Model of C `ascii_strupper`: uppercases every ASCII lowercase letter of
the string in place. -/
def ascii_strupper (s : String) : String :=
  ⟨s.data.map ascii_toupper⟩

/-- Errno constant ENOENT; C error returns are negative errno values. -/
def ENOENT : Int := 2

/-- External device-property accessors (out-of-scope collaborators per the
spec): a device is embedded as the bundle of its typed read functions.
`property_bool` models `device_get_property_bool` (returns 0/1 or a
negative errno, -ENOENT when the property is absent); the `sysattr_*`
fields model `device_get_sysattr_int` / `_unsigned` / `_bool` /
`sd_device_get_sysattr_value`. -/
structure Device where
  property_bool : String → Int
  sysattr_int : String → Except Int Int
  sysattr_unsigned : String → Except Int Nat
  sysattr_bool : String → Int
  sysattr_value : String → Except Int String

/-- Embedding of `naming_sysattr_allowed_by_default`: reads the boolean
property `ID_NET_NAME_ALLOW`; absence (-ENOENT) means allowed (true = 1),
any other result (value or error) is returned as is. -/
def naming_sysattr_allowed_by_default (dev : Device) : Int :=
  let r := dev.property_bool "ID_NET_NAME_ALLOW"
  if r == -ENOENT then 1 else r

/-- Embedding of `naming_sysattr_allowed`: builds the derived property key
by joining "ID_NET_NAME_ALLOW_" with the attribute name and ASCII-uppercasing
the result, reads that boolean property, and on absence (-ENOENT) falls back
to the per-device default; any other result is returned as is. -/
def naming_sysattr_allowed (dev : Device) (sysattr : String) : Int :=
  let sysattr_property := ascii_strupper ("ID_NET_NAME_ALLOW_" ++ sysattr)
  let r := dev.property_bool sysattr_property
  if r == -ENOENT then naming_sysattr_allowed_by_default dev else r

/-- Embedding of `device_get_sysattr_int_filtered`. -/
def device_get_sysattr_int_filtered (dev : Device) (sysattr : String) :
    Except Int Int :=
  let r := naming_sysattr_allowed dev sysattr
  if r < 0 then Except.error r
  else if r == 0 then Except.error (-ENOENT)
  else dev.sysattr_int sysattr

/-- Embedding of `device_get_sysattr_unsigned_filtered`. -/
def device_get_sysattr_unsigned_filtered (dev : Device) (sysattr : String) :
    Except Int Nat :=
  let r := naming_sysattr_allowed dev sysattr
  if r < 0 then Except.error r
  else if r == 0 then Except.error (-ENOENT)
  else dev.sysattr_unsigned sysattr

/-- Embedding of `device_get_sysattr_bool_filtered` (the bool accessor
returns its result in the C return value, negative errno on error). -/
def device_get_sysattr_bool_filtered (dev : Device) (sysattr : String) : Int :=
  let r := naming_sysattr_allowed dev sysattr
  if r < 0 then r
  else if r == 0 then -ENOENT
  else dev.sysattr_bool sysattr

/-- Embedding of `device_get_sysattr_value_filtered`. -/
def device_get_sysattr_value_filtered (dev : Device) (sysattr : String) :
    Except Int String :=
  let r := naming_sysattr_allowed dev sysattr
  if r < 0 then Except.error r
  else if r == 0 then Except.error (-ENOENT)
  else dev.sysattr_value sysattr

/-- Test device built from an association list of boolean properties; a
property absent from the list reads as -ENOENT, a present one as its value.
The raw sysattr reads succeed with fixed benign values so that filtering is
observable. -/
def propDevice (props : List (String × Int)) : Device where
  property_bool := fun key =>
    match props.lookup key with
    | some v => v
    | none => -ENOENT
  sysattr_int := fun _ => Except.ok 1000
  sysattr_unsigned := fun _ => Except.ok 1000
  sysattr_bool := fun _ => 1
  sysattr_value := fun _ => Except.ok "1000"

/-- NamePolicy enumeration from `netif-naming-scheme.h`, in declaration
order (kernel, keep, database, onboard, slot, path, mac). -/
inductive NamePolicy where
  | kernel | keep | database | onboard | slot | path | mac

/-- All NamePolicy values in enum order (indices 0 .. _NAMEPOLICY_MAX-1). -/
def NamePolicy.all : List NamePolicy :=
  [NamePolicy.kernel, NamePolicy.keep, NamePolicy.database,
   NamePolicy.onboard, NamePolicy.slot, NamePolicy.path, NamePolicy.mac]

/-- Static table `name_policy_table[]`: designated initializers give every
policy a string; an uninitialized slot would be NULL (`none`). -/
def name_policy_table : NamePolicy → Option String
  | NamePolicy.kernel => some "kernel"
  | NamePolicy.keep => some "keep"
  | NamePolicy.database => some "database"
  | NamePolicy.onboard => some "onboard"
  | NamePolicy.slot => some "slot"
  | NamePolicy.path => some "path"
  | NamePolicy.mac => some "mac"

/-- Static table `alternative_names_policy_table[]`: only database, onboard,
slot, path and mac are initialized; the kernel and keep slots stay NULL. -/
def alternative_names_policy_table : NamePolicy → Option String
  | NamePolicy.kernel => none
  | NamePolicy.keep => none
  | NamePolicy.database => some "database"
  | NamePolicy.onboard => some "onboard"
  | NamePolicy.slot => some "slot"
  | NamePolicy.path => some "path"
  | NamePolicy.mac => some "mac"

/-- Modelled from the spec: the forward lookup generated by
`DEFINE_STRING_TABLE_LOOKUP` (string-table.h, not under src/) indexes the
table at the enum value and yields its slot, NULL slots included; the spec
describes it as an exact enum-to-string mapping where values outside a
subset are absent. -/
def string_table_to_string (table : NamePolicy → Option String)
    (p : NamePolicy) : Option String :=
  table p

/-- Modelled from the spec: the reverse lookup generated by
`DEFINE_STRING_TABLE_LOOKUP` scans the table in enum order for a non-NULL
slot whose string equals the argument exactly; unknown strings yield
absence. The spec: "exact string match only, unknown strings yield
absence". -/
def string_table_from_string (table : NamePolicy → Option String)
    (s : String) : Option NamePolicy :=
  NamePolicy.all.find? (fun p => table p == some s)

/-- Generated `name_policy_to_string`. -/
def name_policy_to_string : NamePolicy → Option String :=
  string_table_to_string name_policy_table

/-- Generated `name_policy_from_string`. -/
def name_policy_from_string : String → Option NamePolicy :=
  string_table_from_string name_policy_table

/-- Generated `alternative_names_policy_to_string`. -/
def alternative_names_policy_to_string : NamePolicy → Option String :=
  string_table_to_string alternative_names_policy_table

/-- Generated `alternative_names_policy_from_string`. -/
def alternative_names_policy_from_string : String → Option NamePolicy :=
  string_table_from_string alternative_names_policy_table

theorem filtered_of_allowed_neg (dev : Device) (s : String)
    (h : naming_sysattr_allowed dev s < 0) :
    device_get_sysattr_int_filtered dev s =
      Except.error (naming_sysattr_allowed dev s) ∧
    device_get_sysattr_unsigned_filtered dev s =
      Except.error (naming_sysattr_allowed dev s) ∧
    device_get_sysattr_bool_filtered dev s = naming_sysattr_allowed dev s ∧
    device_get_sysattr_value_filtered dev s =
      Except.error (naming_sysattr_allowed dev s) := by
  simp [device_get_sysattr_int_filtered, device_get_sysattr_unsigned_filtered,
    device_get_sysattr_bool_filtered, device_get_sysattr_value_filtered, h]

theorem filtered_of_allowed_zero (dev : Device) (s : String)
    (h : naming_sysattr_allowed dev s = 0) :
    device_get_sysattr_int_filtered dev s = Except.error (-ENOENT) ∧
    device_get_sysattr_unsigned_filtered dev s = Except.error (-ENOENT) ∧
    device_get_sysattr_bool_filtered dev s = -ENOENT ∧
    device_get_sysattr_value_filtered dev s = Except.error (-ENOENT) := by
  simp [device_get_sysattr_int_filtered, device_get_sysattr_unsigned_filtered,
    device_get_sysattr_bool_filtered, device_get_sysattr_value_filtered, h]

theorem filtered_of_allowed_pos (dev : Device) (s : String)
    (h : 0 < naming_sysattr_allowed dev s) :
    device_get_sysattr_int_filtered dev s = dev.sysattr_int s ∧
    device_get_sysattr_unsigned_filtered dev s = dev.sysattr_unsigned s ∧
    device_get_sysattr_bool_filtered dev s = dev.sysattr_bool s ∧
    device_get_sysattr_value_filtered dev s = dev.sysattr_value s := by
  have h1 : ¬ (naming_sysattr_allowed dev s < 0) := by omega
  have h2 : ¬ (naming_sysattr_allowed dev s = 0) := by omega
  simp [device_get_sysattr_int_filtered, device_get_sysattr_unsigned_filtered,
    device_get_sysattr_bool_filtered, device_get_sysattr_value_filtered, h1, h2]

/-- C1: in resolve(), the candidate scheme string k follows the documented
precedence between the environment variable NET_NAMING_SCHEME and the boot
command-line value net.naming-scheme (env with leading colon defers to boot
when boot is present, otherwise uses the rest of the env value; env without
colon wins unconditionally; absent env leaves the boot value), and in
particular boot="v243" with env="v249" resolves to v249 while boot="v243"
with env=":v249" resolves to v243. -/
theorem C1_candidate_precedence :
    (∀ boot env : Option String, candidate boot env = candidate_spec boot env) ∧
    (∀ d : String,
      (naming_scheme_compute [] d (some "v243") (some "v249")).1 =
        some ⟨"v249", NamingSchemeFlags.NAMING_V249⟩) ∧
    (∀ d : String,
      (naming_scheme_compute [] d (some "v243") (some ":v249")).1 =
        some ⟨"v243", NamingSchemeFlags.NAMING_V243⟩) :=
  ⟨fun _ _ => rfl, fun _ => rfl, fun _ => rfl⟩

/-- C2: naming_scheme() is memoized write-once: the second of two calls in
the same process returns the value the first call cached, regardless of any
change to the boot or environment configuration in between, and once the
cache holds a value every later call in the process returns that same value
and leaves the cache unchanged. -/
theorem C2_memoized :
    ∀ (extra : List NamingScheme) (d : String)
      (b1 e1 b2 e2 : Option String) (s : NamingScheme),
      (naming_scheme extra d b1 e1 none).1 = some s →
      (naming_scheme extra d b2 e2 (naming_scheme extra d b1 e1 none).2).1 =
          some s ∧
      (∀ calls, (naming_scheme_calls extra d (some s) calls).1 =
          calls.map (fun _ => some s) ∧
        (naming_scheme_calls extra d (some s) calls).2 = some s) := by
  intro extra d b1 e1 b2 e2 s h
  have h2 : (naming_scheme extra d b1 e1 none).2 = some s := h
  constructor
  · rw [h2]
    rfl
  · intro calls
    induction calls with
    | nil => exact ⟨rfl, rfl⟩
    | cons c rest ih =>
        obtain ⟨b, e⟩ := c
        simpa [naming_scheme_calls, naming_scheme] using ih

theorem C2_memoized_witness :
    (naming_scheme [] "rhel-9.0" (some "v238") none none).1 =
      some ⟨"v238", NamingSchemeFlags.NAMING_V238⟩ ∧
    (naming_scheme [] "rhel-9.0" (some "v252") (some "v250")
        (naming_scheme [] "rhel-9.0" (some "v238") none none).2).1 =
      some ⟨"v238", NamingSchemeFlags.NAMING_V238⟩ :=
  ⟨rfl,
   (C2_memoized [] "rhel-9.0" (some "v238") none (some "v252") (some "v250")
      ⟨"v238", NamingSchemeFlags.NAMING_V238⟩ rfl).1⟩

/-- C3: naming_scheme_from_name is an exact case-sensitive linear search of
the ordered table: any name carried by a table entry resolves to an entry
carrying that name; "latest" resolves to the last table entry when no entry
is literally named "latest"; and any other name not in the table resolves
to absence without error. -/
theorem C3_from_name :
    ∀ (extra : List NamingScheme) (n : String),
      ((∃ s ∈ full_table extra, s.name = n) →
        ∃ s, naming_scheme_from_name extra n = some s ∧ s.name = n ∧
          s ∈ full_table extra) ∧
      ((∀ s ∈ full_table extra, s.name ≠ "latest") →
        naming_scheme_from_name extra "latest" = (full_table extra).getLast?) ∧
      ((∀ s ∈ full_table extra, s.name ≠ n) → n ≠ "latest" →
        naming_scheme_from_name extra n = none) := by
  intro extra n
  refine ⟨fun h => ?_, fun h => ?_, fun h hn => ?_⟩
  · rcases h with ⟨s, hs, hname⟩
    cases hfind : (full_table extra).find? (fun x => x.name == n) with
    | none =>
        exfalso
        have := List.find?_eq_none.mp hfind s hs
        simp [hname] at this
    | some t =>
        refine ⟨t, ?_, ?_, List.mem_of_find?_eq_some hfind⟩
        · simp [naming_scheme_from_name, hfind]
        · have := List.find?_some hfind
          simpa using this
  · have hfind : (full_table extra).find? (fun x => x.name == "latest") = none := by
      apply List.find?_eq_none.mpr
      intro x hx
      simp [h x hx]
    simp [naming_scheme_from_name, hfind]
  · have hfind : (full_table extra).find? (fun x => x.name == n) = none := by
      apply List.find?_eq_none.mpr
      intro x hx
      simp [h x hx]
    simp [naming_scheme_from_name, hfind, hn]

theorem C3_from_name_witness :
    (∃ s, naming_scheme_from_name [] "v243" = some s ∧ s.name = "v243" ∧
      s ∈ full_table []) ∧
    naming_scheme_from_name [] "latest" = (full_table []).getLast? ∧
    naming_scheme_from_name [] "bogus" = none :=
  ⟨(C3_from_name [] "v243").1 (by decide),
   (C3_from_name [] "latest").2.1 (by decide),
   (C3_from_name [] "bogus").2.2 (by decide) (by decide)⟩

/-- C4: each of the four filtered typed accessors propagates an error from
the permission computation, fails with -ENOENT (the not-found signal) when
the attribute is not allowed even though the underlying raw read would
succeed, and otherwise returns exactly the result of the underlying typed
read. -/
theorem C4_filtered_accessors :
    ∀ (dev : Device) (s : String),
      (naming_sysattr_allowed dev s < 0 →
        device_get_sysattr_int_filtered dev s =
          Except.error (naming_sysattr_allowed dev s) ∧
        device_get_sysattr_unsigned_filtered dev s =
          Except.error (naming_sysattr_allowed dev s) ∧
        device_get_sysattr_bool_filtered dev s = naming_sysattr_allowed dev s ∧
        device_get_sysattr_value_filtered dev s =
          Except.error (naming_sysattr_allowed dev s)) ∧
      (naming_sysattr_allowed dev s = 0 →
        device_get_sysattr_int_filtered dev s = Except.error (-ENOENT) ∧
        device_get_sysattr_unsigned_filtered dev s = Except.error (-ENOENT) ∧
        device_get_sysattr_bool_filtered dev s = -ENOENT ∧
        device_get_sysattr_value_filtered dev s = Except.error (-ENOENT)) ∧
      (0 < naming_sysattr_allowed dev s →
        device_get_sysattr_int_filtered dev s = dev.sysattr_int s ∧
        device_get_sysattr_unsigned_filtered dev s = dev.sysattr_unsigned s ∧
        device_get_sysattr_bool_filtered dev s = dev.sysattr_bool s ∧
        device_get_sysattr_value_filtered dev s = dev.sysattr_value s) :=
  fun dev s =>
    ⟨filtered_of_allowed_neg dev s, filtered_of_allowed_zero dev s,
     filtered_of_allowed_pos dev s⟩

theorem C4_filtered_accessors_witness :
    device_get_sysattr_value_filtered
        (propDevice [("ID_NET_NAME_ALLOW_SPEED", -5)]) "speed" =
      Except.error (naming_sysattr_allowed
        (propDevice [("ID_NET_NAME_ALLOW_SPEED", -5)]) "speed") ∧
    device_get_sysattr_bool_filtered
        (propDevice [("ID_NET_NAME_ALLOW_SPEED", 0)]) "speed" = -ENOENT ∧
    device_get_sysattr_int_filtered (propDevice []) "speed" =
      (propDevice []).sysattr_int "speed" :=
  ⟨((C4_filtered_accessors (propDevice [("ID_NET_NAME_ALLOW_SPEED", -5)])
      "speed").1 (by decide)).2.2.2,
   ((C4_filtered_accessors (propDevice [("ID_NET_NAME_ALLOW_SPEED", 0)])
      "speed").2.1 (by decide)).2.2.1,
   ((C4_filtered_accessors (propDevice []) "speed").2.2 (by decide)).1⟩

/-- C5: naming_sysattr_allowed reads the boolean property named by the
prefix ID_NET_NAME_ALLOW_ joined with the upper-cased attribute name; when
that read yields anything but absence (-ENOENT) — a value or another error —
it is authoritative and returned as is, and on absence the result is
naming_sysattr_allowed_by_default, which is 1 (true) when ID_NET_NAME_ALLOW
is absent and otherwise that property's value. In particular, with
ID_NET_NAME_ALLOW=false and ID_NET_NAME_ALLOW_SPEED=true the attribute
"speed" is allowed. -/
theorem C5_allowed :
    (∀ (dev : Device) (s : String),
      (dev.property_bool "ID_NET_NAME_ALLOW" = -ENOENT →
        naming_sysattr_allowed_by_default dev = 1) ∧
      (dev.property_bool "ID_NET_NAME_ALLOW" ≠ -ENOENT →
        naming_sysattr_allowed_by_default dev =
          dev.property_bool "ID_NET_NAME_ALLOW") ∧
      (dev.property_bool (ascii_strupper ("ID_NET_NAME_ALLOW_" ++ s)) ≠
          -ENOENT →
        naming_sysattr_allowed dev s =
          dev.property_bool (ascii_strupper ("ID_NET_NAME_ALLOW_" ++ s))) ∧
      (dev.property_bool (ascii_strupper ("ID_NET_NAME_ALLOW_" ++ s)) =
          -ENOENT →
        naming_sysattr_allowed dev s = naming_sysattr_allowed_by_default dev)) ∧
    naming_sysattr_allowed
      (propDevice [("ID_NET_NAME_ALLOW", 0), ("ID_NET_NAME_ALLOW_SPEED", 1)])
      "speed" = 1 := by
  constructor
  · intro dev s
    refine ⟨fun h => ?_, fun h => ?_, fun h => ?_, fun h => ?_⟩
    · simp [naming_sysattr_allowed_by_default, h]
    · simp [naming_sysattr_allowed_by_default, h]
    · simp [naming_sysattr_allowed, h]
    · simp [naming_sysattr_allowed, h]
  · rfl

theorem C5_allowed_witness :
    naming_sysattr_allowed_by_default (propDevice []) = 1 ∧
    naming_sysattr_allowed_by_default (propDevice [("ID_NET_NAME_ALLOW", 0)]) =
      (propDevice [("ID_NET_NAME_ALLOW", 0)]).property_bool
        "ID_NET_NAME_ALLOW" ∧
    naming_sysattr_allowed (propDevice [("ID_NET_NAME_ALLOW_SPEED", -5)])
        "speed" =
      (propDevice [("ID_NET_NAME_ALLOW_SPEED", -5)]).property_bool
        (ascii_strupper ("ID_NET_NAME_ALLOW_" ++ "speed")) ∧
    naming_sysattr_allowed (propDevice [("ID_NET_NAME_ALLOW", 0)]) "speed" =
      naming_sysattr_allowed_by_default (propDevice [("ID_NET_NAME_ALLOW", 0)]) :=
  ⟨(C5_allowed.1 (propDevice []) "speed").1 (by decide),
   (C5_allowed.1 (propDevice [("ID_NET_NAME_ALLOW", 0)]) "speed").2.1
     (by decide),
   (C5_allowed.1 (propDevice [("ID_NET_NAME_ALLOW_SPEED", -5)]) "speed").2.2.1
     (by decide),
   (C5_allowed.1 (propDevice [("ID_NET_NAME_ALLOW", 0)]) "speed").2.2.2
     (by decide)⟩

/-- C6: when the configured candidate scheme string does not name any
registry entry, resolution does not fail: a warning naming the unresolved
string is emitted and the compile-time default scheme is returned; if even
the default name failed to resolve, resolution aborts (the assert), which
the embedding renders as a none result rather than a user-facing error
value. -/
theorem C6_unknown_scheme_fallback :
    ∀ (extra : List NamingScheme) (d b : String),
      naming_scheme_from_name extra b = none →
      ((∀ dflt, naming_scheme_from_name extra d = some dflt →
        naming_scheme_compute extra d (some b) none =
          (some dflt, [LogMsg.warning b, LogMsg.infoDefault dflt.name])) ∧
       (naming_scheme_from_name extra d = none →
        naming_scheme_compute extra d (some b) none =
          (none, [LogMsg.warning b]))) := by
  intro extra d b hb
  constructor
  · intro dflt hd
    simp [naming_scheme_compute, candidate, startsWithColon, hb, hd]
  · intro hd
    simp [naming_scheme_compute, candidate, startsWithColon, hb, hd]

theorem C6_unknown_scheme_fallback_witness :
    naming_scheme_compute [] "rhel-9.0" (some "bogus") none =
      (some ⟨"rhel-9.0", NamingSchemeFlags.NAMING_RHEL_9_0⟩,
       [LogMsg.warning "bogus", LogMsg.infoDefault "rhel-9.0"]) :=
  (C6_unknown_scheme_fallback [] "rhel-9.0" "bogus" rfl).1
    ⟨"rhel-9.0", NamingSchemeFlags.NAMING_RHEL_9_0⟩ rfl

/-- C7: the policy enum-to-string and string-to-enum mappings round-trip for
every value carried by each table (full set and alternative-names subset);
strings naming a policy outside the alternative-names subset are absent from
that subset's reverse lookup; and unknown strings are absent from both
reverse lookups (exact match only). -/
theorem C7_policy_round_trip :
    (∀ (p : NamePolicy) (s : String), name_policy_to_string p = some s →
      name_policy_from_string s = some p) ∧
    (∀ (p : NamePolicy) (s : String),
      alternative_names_policy_to_string p = some s →
      alternative_names_policy_from_string s = some p) ∧
    alternative_names_policy_from_string "kernel" = none ∧
    alternative_names_policy_from_string "keep" = none ∧
    (∀ s : String,
      s ∉ ["kernel", "keep", "database", "onboard", "slot", "path", "mac"] →
      name_policy_from_string s = none ∧
      alternative_names_policy_from_string s = none) := by
  refine ⟨?_, ?_, rfl, rfl, ?_⟩
  · intro p s h
    cases p <;>
      (simp only [name_policy_to_string, string_table_to_string,
        name_policy_table, Option.some.injEq] at h; subst h; rfl)
  · intro p s h
    cases p <;>
      simp only [alternative_names_policy_to_string, string_table_to_string,
        alternative_names_policy_table, Option.some.injEq,
        reduceCtorEq] at h <;> (subst h; rfl)
  · intro s hs
    simp only [List.mem_cons, List.not_mem_nil, or_false, not_or] at hs
    obtain ⟨h1, h2, h3, h4, h5, h6, h7⟩ := hs
    have h1' : "kernel" ≠ s := fun hh => h1 hh.symm
    have h2' : "keep" ≠ s := fun hh => h2 hh.symm
    have h3' : "database" ≠ s := fun hh => h3 hh.symm
    have h4' : "onboard" ≠ s := fun hh => h4 hh.symm
    have h5' : "slot" ≠ s := fun hh => h5 hh.symm
    have h6' : "path" ≠ s := fun hh => h6 hh.symm
    have h7' : "mac" ≠ s := fun hh => h7 hh.symm
    constructor <;>
    · apply List.find?_eq_none.mpr
      intro p hp
      cases p <;> simp [name_policy_table, alternative_names_policy_table] <;>
        assumption

theorem C7_policy_round_trip_witness :
    name_policy_from_string "database" = some NamePolicy.database ∧
    alternative_names_policy_from_string "mac" = some NamePolicy.mac ∧
    name_policy_from_string "qux" = none :=
  ⟨C7_policy_round_trip.1 NamePolicy.database "database" rfl,
   C7_policy_round_trip.2.1 NamePolicy.mac "mac" rfl,
   (C7_policy_round_trip.2.2.2.2 "qux" (by decide)).1⟩

/-- C8 counterexample: with the boot parameter unset and NET_NAMING_SCHEME
set to the empty string, the candidate k is the present (non-NULL) empty
string, so — contrary to the claim — the registry lookup is attempted and a
warning naming the empty string is emitted before falling back to the
default. -/
theorem C8_counterexample :
    LogMsg.warning "" ∈ (naming_scheme_compute [] "rhel-9.0" none (some "")).2
      := by
  show LogMsg.warning "" ∈ [LogMsg.warning "", LogMsg.infoDefault "rhel-9.0"]
  exact List.mem_cons_self _ _

/-- C8 amended: the registry lookup of the candidate (and the warning on its
failure) is gated only on the candidate being present (non-NULL), not on it
being non-empty: whenever the combined sources yield a present candidate k
that the registry does not know — the empty string included — find(k) is
attempted, the warning naming k is emitted, and the result is the default
lookup's result. -/
theorem C8_lookup_when_present :
    ∀ (extra : List NamingScheme) (d : String) (buffer e : Option String)
      (k : String),
      candidate buffer e = some k →
      naming_scheme_from_name extra k = none →
      LogMsg.warning k ∈ (naming_scheme_compute extra d buffer e).2 ∧
      (naming_scheme_compute extra d buffer e).1 =
        naming_scheme_from_name extra d := by
  intro extra d buffer e k hc hk
  cases hd : naming_scheme_from_name extra d <;>
    simp [naming_scheme_compute, hc, hk, hd]

theorem C8_lookup_when_present_witness :
    LogMsg.warning "" ∈ (naming_scheme_compute [] "rhel-9.0" none (some "")).2 ∧
    (naming_scheme_compute [] "rhel-9.0" none (some "")).1 =
      naming_scheme_from_name [] "rhel-9.0" :=
  C8_lookup_when_present [] "rhel-9.0" none (some "") "" rfl rfl

theorem ascii_strupper_append (a b : String) :
    ascii_strupper (a ++ b) = ascii_strupper a ++ ascii_strupper b := by
  simp [ascii_strupper, String.data_append]
  rfl

/-- C9: the permission decision is case-insensitive in the attribute name
over ASCII letters — two attribute names with the same ASCII uppercasing
yield the same naming_sysattr_allowed result, because the derived property
key is the uppercased name appended to the already-uppercase prefix — while
the delegated raw read of the filtered accessors uses each attribute name
exactly as given. -/
theorem C9_case_insensitive :
    ∀ (dev : Device) (s t : String),
      ascii_strupper s = ascii_strupper t →
      naming_sysattr_allowed dev s = naming_sysattr_allowed dev t ∧
      (0 < naming_sysattr_allowed dev s →
        device_get_sysattr_bool_filtered dev s = dev.sysattr_bool s ∧
        device_get_sysattr_bool_filtered dev t = dev.sysattr_bool t ∧
        device_get_sysattr_value_filtered dev s = dev.sysattr_value s ∧
        device_get_sysattr_value_filtered dev t = dev.sysattr_value t) := by
  intro dev s t h
  have hkey : ascii_strupper ("ID_NET_NAME_ALLOW_" ++ s) =
      ascii_strupper ("ID_NET_NAME_ALLOW_" ++ t) := by
    rw [ascii_strupper_append, ascii_strupper_append, h]
  have hall : naming_sysattr_allowed dev s = naming_sysattr_allowed dev t := by
    simp only [naming_sysattr_allowed, hkey]
  refine ⟨hall, fun hpos => ?_⟩
  have hpos' : 0 < naming_sysattr_allowed dev t := hall ▸ hpos
  exact ⟨(filtered_of_allowed_pos dev s hpos).2.2.1,
    (filtered_of_allowed_pos dev t hpos').2.2.1,
    (filtered_of_allowed_pos dev s hpos).2.2.2,
    (filtered_of_allowed_pos dev t hpos').2.2.2⟩

theorem C9_case_insensitive_witness :
    naming_sysattr_allowed (propDevice [("ID_NET_NAME_ALLOW_SPEED", 1)])
        "speed" =
      naming_sysattr_allowed (propDevice [("ID_NET_NAME_ALLOW_SPEED", 1)])
        "SPEED" ∧
    (0 < naming_sysattr_allowed (propDevice [("ID_NET_NAME_ALLOW_SPEED", 1)])
        "speed" →
      device_get_sysattr_bool_filtered
          (propDevice [("ID_NET_NAME_ALLOW_SPEED", 1)]) "speed" =
        (propDevice [("ID_NET_NAME_ALLOW_SPEED", 1)]).sysattr_bool "speed" ∧
      device_get_sysattr_bool_filtered
          (propDevice [("ID_NET_NAME_ALLOW_SPEED", 1)]) "SPEED" =
        (propDevice [("ID_NET_NAME_ALLOW_SPEED", 1)]).sysattr_bool "SPEED" ∧
      device_get_sysattr_value_filtered
          (propDevice [("ID_NET_NAME_ALLOW_SPEED", 1)]) "speed" =
        (propDevice [("ID_NET_NAME_ALLOW_SPEED", 1)]).sysattr_value "speed" ∧
      device_get_sysattr_value_filtered
          (propDevice [("ID_NET_NAME_ALLOW_SPEED", 1)]) "SPEED" =
        (propDevice [("ID_NET_NAME_ALLOW_SPEED", 1)]).sysattr_value "SPEED") :=
  C9_case_insensitive (propDevice [("ID_NET_NAME_ALLOW_SPEED", 1)])
    "speed" "SPEED" (by decide)

/-- C10: the forward lookup of the alternative-names subset yields absence
for the kernel and keep policies (their table slots are unset), while the
full-set forward lookup is defined for all seven policy values. -/
theorem C10_alternative_forward_absence :
    alternative_names_policy_to_string NamePolicy.kernel = none ∧
    alternative_names_policy_to_string NamePolicy.keep = none ∧
    (name_policy_to_string NamePolicy.kernel).isSome = true ∧
    (name_policy_to_string NamePolicy.keep).isSome = true ∧
    (name_policy_to_string NamePolicy.database).isSome = true ∧
    (name_policy_to_string NamePolicy.onboard).isSome = true ∧
    (name_policy_to_string NamePolicy.slot).isSome = true ∧
    (name_policy_to_string NamePolicy.path).isSome = true ∧
    (name_policy_to_string NamePolicy.mac).isSome = true :=
  ⟨rfl, rfl, rfl, rfl, rfl, rfl, rfl, rfl, rfl⟩
